import Mathlib

/-!
Shallow embedding of the `echoserver` repository's handler and middleware
logic (Go), together with proofs about the spec's claims.

Handlers are embedded as pure functions from their query parameters
(`r.URL.Query().Get(...)` returns `""` when a parameter is absent, so a
parameter is modelled as a plain `String` with `""` standing for
missing/empty) to a `Response`.  A Go panic is modelled as the `error`
side of an `Except String` result, carrying the panic payload (every
panic in this repository carries a `string`).
-/

namespace Echoserver

/-- An HTTP response as observed by the client: the status code written by
`render.Status`/`http.Error`, the body, and the explicitly `Add`ed response
headers.  (Sources in `src/cmd/echoserver/handlers.go`.) -/
structure Response where
  status : Int
  body : String
  headers : List (String × String) := []
deriving DecidableEq

/-- Model of Go's `http.Error(w, msg, code)`: writes `msg` followed by a
newline as the body with the given status code (the `Content-Type` and
`X-Content-Type-Options` headers it also sets are not modelled). -/
def httpError (msg : String) (code : Int) : Response :=
  { status := code, body := msg ++ "\n", headers := [] }

/-- Model of Go's `strconv.Quote`/`time`'s `quote` on strings that need no
escaping (every string quoted in this development is plain ASCII without
quotes or control characters, where Go's quoting is exactly
`"\"" + s + "\""`). -/
def goQuote (s : String) : String := "\"" ++ s ++ "\""

/-- Embedding of Go's `net/http.StatusText`: the standard (IANA) reason
phrase for an HTTP status code, or the empty string for codes without one. -/
def statusText (code : Int) : String :=
  if code = 100 then "Continue"
  else if code = 101 then "Switching Protocols"
  else if code = 102 then "Processing"
  else if code = 103 then "Early Hints"
  else if code = 200 then "OK"
  else if code = 201 then "Created"
  else if code = 202 then "Accepted"
  else if code = 203 then "Non-Authoritative Information"
  else if code = 204 then "No Content"
  else if code = 205 then "Reset Content"
  else if code = 206 then "Partial Content"
  else if code = 207 then "Multi-Status"
  else if code = 208 then "Already Reported"
  else if code = 226 then "IM Used"
  else if code = 300 then "Multiple Choices"
  else if code = 301 then "Moved Permanently"
  else if code = 302 then "Found"
  else if code = 303 then "See Other"
  else if code = 304 then "Not Modified"
  else if code = 305 then "Use Proxy"
  else if code = 307 then "Temporary Redirect"
  else if code = 308 then "Permanent Redirect"
  else if code = 400 then "Bad Request"
  else if code = 401 then "Unauthorized"
  else if code = 402 then "Payment Required"
  else if code = 403 then "Forbidden"
  else if code = 404 then "Not Found"
  else if code = 405 then "Method Not Allowed"
  else if code = 406 then "Not Acceptable"
  else if code = 407 then "Proxy Authentication Required"
  else if code = 408 then "Request Timeout"
  else if code = 409 then "Conflict"
  else if code = 410 then "Gone"
  else if code = 411 then "Length Required"
  else if code = 412 then "Precondition Failed"
  else if code = 413 then "Request Entity Too Large"
  else if code = 414 then "Request URI Too Long"
  else if code = 415 then "Unsupported Media Type"
  else if code = 416 then "Requested Range Not Satisfiable"
  else if code = 417 then "Expectation Failed"
  else if code = 418 then "I\x27m a teapot"
  else if code = 421 then "Misdirected Request"
  else if code = 422 then "Unprocessable Entity"
  else if code = 423 then "Locked"
  else if code = 424 then "Failed Dependency"
  else if code = 425 then "Too Early"
  else if code = 426 then "Upgrade Required"
  else if code = 428 then "Precondition Required"
  else if code = 429 then "Too Many Requests"
  else if code = 431 then "Request Header Fields Too Large"
  else if code = 451 then "Unavailable For Legal Reasons"
  else if code = 500 then "Internal Server Error"
  else if code = 501 then "Not Implemented"
  else if code = 502 then "Bad Gateway"
  else if code = 503 then "Service Unavailable"
  else if code = 504 then "Gateway Timeout"
  else if code = 505 then "HTTP Version Not Supported"
  else if code = 506 then "Variant Also Negotiates"
  else if code = 507 then "Insufficient Storage"
  else if code = 508 then "Loop Detected"
  else if code = 510 then "Not Extended"
  else if code = 511 then "Network Authentication Required"
  else ""

/-- Embedding of Go's `strconv.Atoi` (64-bit `int`): an optional sign
followed by at least one decimal digit, with the result required to fit a
signed 64-bit integer; on failure, the error message produced by
`NumError.Error`. -/
def goAtoi (str : String) : Except String Int :=
  let syntaxErr : Except String Int :=
    .error ("strconv.Atoi: parsing " ++ goQuote str ++ ": invalid syntax")
  match str.data with
  | [] => syntaxErr
  | c :: rest =>
    let signDigits : Bool × List Char :=
      if c == '-' then (true, rest)
      else if c == '+' then (false, rest)
      else (false, c :: rest)
    let neg := signDigits.1
    let ds := signDigits.2
    if ds.isEmpty then syntaxErr
    else if ds.all Char.isDigit then
      let n : Nat := ds.foldl (fun a ch => a * 10 + (ch.toNat - 48)) 0
      let v : Int := if neg then -(n : Int) else (n : Int)
      if v < -(2 ^ 63) || v > 2 ^ 63 - 1 then
        .error ("strconv.Atoi: parsing " ++ goQuote str ++ ": value out of range")
      else .ok v
    else syntaxErr

/-- Embedding of `statusHandler` (`src/cmd/echoserver/handlers.go`).  The
random branch (empty or `"random"` parameter) receives the drawn index as
an explicit argument `randIdx`; `rand.Int` draws it uniformly from
`[0, 9)`. -/
def randomStatusCodes : List Int := [200, 200, 200, 200, 200, 400, 500, 502, 503]

/-- Embedding of `statusHandler`: parse the `status` parameter and respond
with that code and `http.StatusText` of it, 400 on a parse failure, and a
code drawn from `randomStatusCodes` when the parameter is empty or
`"random"`. -/
def statusHandler (status : String) (randIdx : Nat) : Response :=
  if status = "" ∨ status = "random" then
    let s := randomStatusCodes.getD randIdx 0
    { status := s, body := statusText s, headers := [] }
  else
    match goAtoi status with
    | .error e => httpError e 400
    | .ok s => { status := s, body := statusText s, headers := [] }

/-- C1: For every integer `s` in `[100,599]`, a request to `/status` whose
`status` parameter parses to `s` produces a response whose status code is
exactly `s` and whose body is the standard reason phrase for `s` (Go's
`http.StatusText`, empty for codes with no assigned phrase). -/
theorem status_param_exact (q : String) (s : Int) (i : Nat)
    (hq : goAtoi q = .ok s) (_h1 : 100 ≤ s) (_h2 : s ≤ 599) :
    statusHandler q i = { status := s, body := statusText s, headers := [] } := by
  have hne : q ≠ "" := by
    rintro rfl
    simp [goAtoi] at hq
  have hnr : q ≠ "random" := by
    rintro rfl
    simp [goAtoi] at hq
  unfold statusHandler
  rw [if_neg]
  · rw [hq]
  · simp [hne, hnr]

/-- Witness for `status_param_exact` at the concrete query `"418"`. -/
theorem status_param_exact_witness :
    statusHandler "418" 0 = { status := 418, body := "I\x27m a teapot", headers := [] } := by
  have h := status_param_exact "418" 418 0 rfl (by decide) (by decide)
  rw [h]
  decide

/-- The unit table of Go's `time.ParseDuration` (values in nanoseconds). -/
def unitMap (u : String) : Option Nat :=
  if u == "ns" then some 1
  else if u == "us" then some 1000
  else if u == "µs" then some 1000
  else if u == "μs" then some 1000
  else if u == "ms" then some 1000000
  else if u == "s" then some 1000000000
  else if u == "m" then some 60000000000
  else if u == "h" then some 3600000000000
  else none

/-- Go `time.leadingInt`: consume leading decimal digits into an
accumulator, failing (`none`) when the accumulator would pass `2^63`. -/
def leadingInt : List Char → Nat → Option (Nat × List Char)
  | [], x => some (x, [])
  | c :: rest, x =>
    if c.isDigit then
      if x > 2 ^ 63 / 10 then none
      else
        let y := x * 10 + (c.toNat - 48)
        if y > 2 ^ 63 then none
        else leadingInt rest y
    else some (x, c :: rest)

/-- Go `time.leadingFraction`: consume the digits after a decimal point,
returning the fraction value, its scale (a power of 10), and the rest;
digits past the overflow threshold are consumed but ignored.  (Go keeps
the scale in a `float64`; up to 18 digits a power of 10 is exactly
representable, so `Nat` is faithful here.) -/
def leadingFraction : List Char → Nat → Nat → Bool → Nat × Nat × List Char
  | [], x, scale, _ => (x, scale, [])
  | c :: rest, x, scale, overflow =>
    if c.isDigit then
      if overflow then leadingFraction rest x scale true
      else if x > (2 ^ 63 - 1) / 10 then leadingFraction rest x scale true
      else
        let y := x * 10 + (c.toNat - 48)
        if y > 2 ^ 63 then leadingFraction rest x scale true
        else leadingFraction rest y (scale * 10) false
    else (x, scale, c :: rest)

/-- Length of the unit token in `time.ParseDuration`: the characters up to
the next digit or decimal point. -/
def unitLen : List Char → Nat
  | [] => 0
  | c :: rest => if c == '.' || c.isDigit then 0 else 1 + unitLen rest

/-- The main loop of Go's `time.ParseDuration`, accumulating nanoseconds.
Every iteration consumes at least one character, so the fuel
`s.length + 1` never runs out; the fuel-exhausted branch mirrors the
generic error and is unreachable.  Go adds the fractional contribution as
`uint64(float64(f) * (float64(unit) / scale))`; this is modelled with the
exact value `f * unit / scale` (truncated division), which agrees with the
`float64` computation whenever the latter is exact. -/
def parseDurationLoop : Nat → List Char → String → Nat → Except String Nat
  | _, [], _, d => .ok d
  | 0, _ :: _, orig, _ => .error ("time: invalid duration " ++ goQuote orig)
  | fuel + 1, c0 :: s0, orig, d =>
    let invalid : Except String Nat :=
      .error ("time: invalid duration " ++ goQuote orig)
    let s := c0 :: s0
    if !(c0 == '.' || c0.isDigit) then invalid
    else match leadingInt s 0 with
    | none => invalid
    | some (v, s1) =>
      let pre := decide (s1.length ≠ s.length)
      let fracRes : Nat × Nat × List Char × Bool :=
        match s1 with
        | '.' :: rest =>
          let fr := leadingFraction rest 0 1 false
          (fr.1, fr.2.1, fr.2.2, decide (fr.2.2.length ≠ rest.length))
        | _ => (0, 1, s1, false)
      let f := fracRes.1
      let scale := fracRes.2.1
      let s2 := fracRes.2.2.1
      let post := fracRes.2.2.2
      if !pre && !post then invalid
      else
        let i := unitLen s2
        if i = 0 then .error ("time: missing unit in duration " ++ goQuote orig)
        else
          let u := String.mk (s2.take i)
          let s3 := s2.drop i
          match unitMap u with
          | none =>
            .error ("time: unknown unit " ++ goQuote u ++ " in duration " ++ goQuote orig)
          | some unit =>
            if v > 2 ^ 63 / unit then invalid
            else
              let v1 := v * unit
              let v2 := if f > 0 then v1 + f * unit / scale else v1
              if f > 0 && v2 > 2 ^ 63 then invalid
              else
                let d1 := d + v2
                if d1 > 2 ^ 63 then invalid
                else parseDurationLoop fuel s3 orig d1

/-- Embedding of Go's `time.ParseDuration`, returning the duration in
nanoseconds. -/
def goParseDuration (str : String) : Except String Int :=
  let signRest : Bool × List Char :=
    match str.data with
    | '-' :: rest => (true, rest)
    | '+' :: rest => (false, rest)
    | cs => (false, cs)
  let neg := signRest.1
  let s := signRest.2
  if s == ['0'] then .ok 0
  else if s.isEmpty then .error ("time: invalid duration " ++ goQuote str)
  else match parseDurationLoop (s.length + 1) s str 0 with
  | .error e => .error e
  | .ok d =>
    if neg then .ok (-(d : Int))
    else if d > 2 ^ 63 - 1 then .error ("time: invalid duration " ++ goQuote str)
    else .ok (d : Int)

/-- A response together with the time the handler spent in `time.Sleep`,
in nanoseconds (`time.Sleep` returns immediately on a non-positive
duration). -/
structure SleptResponse where
  resp : Response
  sleptNs : Int
deriving DecidableEq

/-- Embedding of `timeoutHandler` (`src/cmd/echoserver/handlers.go`):
missing parameter and parse failures get 400 via `http.Error`; a parsed
duration is slept (non-positive durations sleep zero time) and the
response is 200 with `http.StatusText(200)` as body. -/
def timeoutHandler (timeout : String) : SleptResponse :=
  if timeout = "" then ⟨httpError "timeout parameter is missing" 400, 0⟩
  else match goParseDuration timeout with
  | .error e => ⟨httpError e 400, 0⟩
  | .ok d => ⟨{ status := 200, body := statusText 200, headers := [] }, max d 0⟩

/-- Embedding of Go's `strings.Repeat`: panics (modelled as `.error`) on a
negative count. -/
def stringsRepeat (s : String) (count : Int) : Except String String :=
  if count < 0 then .error "strings: negative Repeat count"
  else .ok (String.mk (List.flatten (List.replicate count.toNat s.data)))

/-- Embedding of `headerSizeHandler` (`src/cmd/echoserver/handlers.go`):
missing parameter and `Atoi` failures get 400; a parsed size builds the
`X-Header-Size` header value with `strings.Repeat("0", size)` (which
panics on a negative size) and responds 200. -/
def headerSizeHandler (size : String) : Except String Response :=
  if size = "" then .ok (httpError "size parameter is missing" 400)
  else match goAtoi size with
  | .error e => .ok (httpError e 400)
  | .ok n =>
    match stringsRepeat "0" n with
    | .error p => .error p
    | .ok filler =>
      .ok { status := 200, body := statusText 200, headers := [("X-Header-Size", filler)] }

/-- Embedding of `panicHandler` (`src/cmd/echoserver/handlers.go`): it
unconditionally panics with the string `"panic test"`. -/
def panicHandler : Except String Response := .error "panic test"

/-- The deferred `recover` inside `handleTraces`
(`src/pkg/instrument/middleware.go`): a recovered panic is rendered with
`fmt.Sprintf("%#v", err)` (for a string payload, its quoted form) and
written via `http.Error(..., 500)`.  The second component records whether
this boundary caught a panic. -/
def handleTracesMW (next : Except String Response) : Except String Response × Bool :=
  match next with
  | .ok r => (.ok r, false)
  | .error p => (.ok (httpError (goQuote p) 500), true)

/-- The recoverer middleware
(`src/pkg/httpserver/middleware/recoverer/recoverer.go`): same conversion
of a recovered panic to a 500 via `http.Error` (its `http.ErrAbortHandler`
exemption is unreachable here: every panic in this repository carries a
string).  The second component records whether this boundary caught a
panic. -/
def recovererMW (next : Except String Response) : Response × Bool :=
  match next with
  | .ok r => (r, false)
  | .error p => (httpError (goQuote p) 500, true)

/-- Outcome of running a handler through the full middleware chain: the
final response, and which recovery boundary (if any) caught a panic. -/
structure ChainResult where
  response : Response
  recovererCaught : Bool
  instrumentCaught : Bool
deriving DecidableEq

/-- The middleware chain of `src/cmd/echoserver/echoserver.go`:
`router.Use(recoverer.Handler)` (outermost), then `middleware.RequestID`
(which has no recovery), then `instrument.Handler()` whose `handleTraces`
registers its own deferred `recover`.  On a panic the deferred functions
run innermost-first, so `handleTraces` recovers before the recoverer's
deferred function observes anything. -/
def middlewareChain (h : Except String Response) : ChainResult :=
  let inner := handleTracesMW h
  let outer := recovererMW inner.1
  ⟨outer.1, outer.2, inner.2⟩

theorem flatten_replicate_singleton (m : Nat) (c : Char) :
    List.flatten (List.replicate m [c]) = List.replicate m c := by
  induction m with
  | zero => rfl
  | succ k ih => simp [List.replicate_succ, ih]

/-- C7: for every query that `Atoi`-parses to a non-negative `n`,
`/headersize` responds 200 with an `X-Header-Size` header whose value is a
filler string of length exactly `n`; for `n = 0` the header is present
with the empty value. -/
theorem headersize_nonneg (q : String) (n : Int)
    (hq : goAtoi q = .ok n) (hn : 0 ≤ n) :
    headerSizeHandler q =
      .ok { status := 200, body := "OK",
            headers := [("X-Header-Size", String.mk (List.replicate n.toNat '0'))] }
    ∧ (String.mk (List.replicate n.toNat '0')).length = n.toNat := by
  have hne : q ≠ "" := by
    rintro rfl
    simp [goAtoi] at hq
  constructor
  · unfold headerSizeHandler
    rw [if_neg hne, hq]
    dsimp only
    unfold stringsRepeat
    rw [if_neg (show ¬ n < 0 by omega)]
    dsimp only
    rw [flatten_replicate_singleton]
    rfl
  · simp [String.length]

/-- Witness for `headersize_nonneg` at `size=0`: the header is present
with an empty value of length 0. -/
theorem headersize_nonneg_witness :
    headerSizeHandler "0" =
      .ok { status := 200, body := "OK", headers := [("X-Header-Size", "")] } := by
  have h := (headersize_nonneg "0" 0 rfl (by decide)).1
  simpa using h

/-- C9: a parseable negative duration (such as `"-5s"`) is accepted by
`/timeout`: the handler sleeps zero time and responds 200 with body
`"OK"`; the parameter check rejects only missing or unparseable values. -/
theorem timeout_negative (q : String) (d : Int)
    (hq : goParseDuration q = .ok d) (hd : d < 0) :
    timeoutHandler q = ⟨{ status := 200, body := "OK", headers := [] }, 0⟩ := by
  have hne : q ≠ "" := by
    rintro rfl
    simp [goParseDuration] at hq
  unfold timeoutHandler
  rw [if_neg hne, hq]
  dsimp only
  rw [max_eq_right hd.le]
  rfl

/-- Witness for `timeout_negative` at `timeout=-5s`. -/
theorem timeout_negative_witness :
    timeoutHandler "-5s" = ⟨{ status := 200, body := "OK", headers := [] }, 0⟩ :=
  timeout_negative "-5s" (-5000000000) rfl (by decide)

/-- C3 counterexample: `size=-1` is not a non-negative integer, yet the
handler does not respond with a 400-class status: `Atoi` parses it, the
handler panics in `strings.Repeat`, and through the middleware chain the
client observes a 500. -/
theorem headersize_negative_counterexample :
    goAtoi "-1" = .ok (-1)
    ∧ headerSizeHandler "-1" = .error "strings: negative Repeat count"
    ∧ (middlewareChain (headerSizeHandler "-1")).response.status = 500 :=
  ⟨rfl, rfl, rfl⟩

/-- C3 (amended): a missing parameter or a parameter that fails parsing
gets a 400 whose body echoes the failure, for both `/timeout` and
`/headersize`; but for `/headersize` a negative integer passes the
parameter check ('not a non-negative integer' is not fully rejected) and
panics in `strings.Repeat`, which the middleware chain surfaces as a
500. -/
theorem client_input_errors :
    timeoutHandler "" = ⟨httpError "timeout parameter is missing" 400, 0⟩
    ∧ (∀ q e, q ≠ "" → goParseDuration q = .error e →
        timeoutHandler q = ⟨httpError e 400, 0⟩)
    ∧ headerSizeHandler "" = .ok (httpError "size parameter is missing" 400)
    ∧ (∀ q e, q ≠ "" → goAtoi q = .error e →
        headerSizeHandler q = .ok (httpError e 400))
    ∧ (∀ q n, goAtoi q = .ok n → n < 0 →
        middlewareChain (headerSizeHandler q) =
          ⟨httpError (goQuote "strings: negative Repeat count") 500, false, true⟩) := by
  refine ⟨rfl, ?_, rfl, ?_, ?_⟩
  · intro q e hne hq
    unfold timeoutHandler
    rw [if_neg hne, hq]
  · intro q e hne hq
    unfold headerSizeHandler
    rw [if_neg hne, hq]
  · intro q n hq hn
    have hh : headerSizeHandler q = .error "strings: negative Repeat count" := by
      have hne : q ≠ "" := by
        rintro rfl
        simp [goAtoi] at hq
      unfold headerSizeHandler
      rw [if_neg hne, hq]
      dsimp only
      unfold stringsRepeat
      rw [if_pos hn]
    rw [hh]
    rfl

/-- Witness for `client_input_errors` at the concrete inputs
`timeout=abc` and `size=-1`. -/
theorem client_input_errors_witness :
    timeoutHandler "abc" = ⟨httpError "time: invalid duration \"abc\"" 400, 0⟩
    ∧ middlewareChain (headerSizeHandler "-1") =
        ⟨httpError (goQuote "strings: negative Repeat count") 500, false, true⟩ :=
  ⟨client_input_errors.2.1 "abc" _ (by decide) rfl,
   client_input_errors.2.2.2.2 "-1" (-1) rfl (by decide)⟩

/-- C6 counterexample: the panic from `/panic` is converted to a 500 by
the *innermost* recovery boundary (the instrumentation middleware's
deferred `recover` in `handleTraces`); the outermost recovery boundary
(the recoverer middleware) observes no panic, contradicting 'caught at
the outermost recovery boundary'. -/
theorem panic_outermost_counterexample :
    (middlewareChain panicHandler).recovererCaught = false
    ∧ (middlewareChain panicHandler).instrumentCaught = true
    ∧ (middlewareChain panicHandler).response = httpError (goQuote "panic test") 500 :=
  ⟨rfl, rfl, rfl⟩

/-- C6 (amended): every string panic raised inside a handler is caught
exactly once, at the innermost recovery boundary (the instrumentation
middleware), not the outermost one (the recoverer, which observes no
panic), and is converted into a 500 response with the `%#v` rendering of
the payload in the body; non-panicking responses pass through untouched,
so the chain always yields a well-formed response and the process keeps
serving. -/
theorem panic_recovery (p : String) (r : Response) :
    middlewareChain (.error p) = ⟨httpError (goQuote p) 500, false, true⟩
    ∧ middlewareChain (.ok r) = ⟨r, false, false⟩ :=
  ⟨rfl, rfl⟩

/-- Embedding of `fibonacci` (`src/cmd/echoserver/handlers.go`): the
fast-doubling recursion on `n / 2`, computed on arbitrary-precision
integers (`big.Int` is modelled by `Int`; all intermediate values here
stay non-negative). -/
def fibonacci (n : Nat) : Int × Int :=
  if h : n = 0 then (0, 1)
  else
    have : n / 2 < n := Nat.div_lt_self (Nat.pos_of_ne_zero h) (by omega)
    let p := fibonacci (n / 2)
    let a := p.1
    let b := p.2
    let c := a * (b * 2 - a)
    let d := a * a + b * b
    if n % 2 = 0 then (c, d) else (d, d + c)

theorem fibonacci_fast_doubling (n : Nat) :
    fibonacci n = ((Nat.fib n : Int), (Nat.fib (n + 1) : Int)) := by
  induction n using Nat.strong_induction_on with
  | _ n ih =>
    by_cases h0 : n = 0
    · subst h0
      simp [fibonacci]
    · rw [fibonacci, dif_neg h0]
      have ihh := ih (n / 2) (Nat.div_lt_self (Nat.pos_of_ne_zero h0) (by omega))
      dsimp only
      rw [ihh]
      dsimp only
      have hle : Nat.fib (n / 2) ≤ 2 * Nat.fib (n / 2 + 1) :=
        le_trans (Nat.fib_le_fib_succ) (by omega)
      have heven : (Nat.fib (2 * (n / 2)) : Int) =
          (Nat.fib (n / 2) : Int) * ((Nat.fib (n / 2 + 1) : Int) * 2 - Nat.fib (n / 2)) := by
        have h2 := Nat.fib_two_mul (n / 2)
        zify [hle] at h2
        rw [h2]
        ring
      have hodd : (Nat.fib (2 * (n / 2) + 1) : Int) =
          (Nat.fib (n / 2) : Int) * Nat.fib (n / 2)
            + (Nat.fib (n / 2 + 1) : Int) * Nat.fib (n / 2 + 1) := by
        have h2 := Nat.fib_two_mul_add_one (n / 2)
        zify at h2
        rw [h2]
        ring
      by_cases hp : n % 2 = 0
      · rw [if_pos hp]
        rw [Prod.mk.injEq]
        constructor
        · conv_rhs => rw [show n = 2 * (n / 2) by omega]
          exact heven.symm
        · conv_rhs => rw [show n + 1 = 2 * (n / 2) + 1 by omega]
          exact hodd.symm
      · rw [if_neg hp]
        rw [Prod.mk.injEq]
        constructor
        · conv_rhs => rw [show n = 2 * (n / 2) + 1 by omega]
          exact hodd.symm
        · have hsum : (Nat.fib (2 * (n / 2) + 2) : Int) =
              (Nat.fib (2 * (n / 2)) : Int) + (Nat.fib (2 * (n / 2) + 1) : Int) := by
            have h2 := Nat.fib_add_two (n := 2 * (n / 2))
            zify at h2
            rw [h2]
          conv_rhs => rw [show n + 1 = 2 * (n / 2) + 2 by omega]
          rw [hsum, heven, hodd]
          ring

/-- Embedding of Go's `strconv.ParseUint(s, 10, 64)`: no sign allowed, at
least one decimal digit, result below `2^64`. -/
def goParseUint64 (str : String) : Except String Nat :=
  let syntaxErr : Except String Nat :=
    .error ("strconv.ParseUint: parsing " ++ goQuote str ++ ": invalid syntax")
  match str.data with
  | [] => syntaxErr
  | ds =>
    if ds.all Char.isDigit then
      let n : Nat := ds.foldl (fun a ch => a * 10 + (ch.toNat - 48)) 0
      if n > 2 ^ 64 - 1 then
        .error ("strconv.ParseUint: parsing " ++ goQuote str ++ ": value out of range")
      else .ok n
    else syntaxErr

/-- Embedding of `fibonacciHandler` (`src/cmd/echoserver/handlers.go`):
missing or unparseable `n` gets 400; otherwise 200 with the decimal
string of the first component of `fibonacci n` as body. -/
def fibonacciHandler (nParam : String) : Response :=
  if nParam = "" then httpError "n parameter is missing" 400
  else match goParseUint64 nParam with
  | .error e => httpError e 400
  | .ok n => { status := 200, body := toString (fibonacci n).1, headers := [] }

/-- C2: the fast-doubling `fibonacci` agrees with the standard linear
Fibonacci sequence (`Nat.fib`, with `F(0)=0`, `F(1)=1`) for every `n`,
and for every query that parses as an unsigned 64-bit integer `n`,
`/fibonacci` responds 200 with the decimal string of `F(n)` as body. -/
theorem fibonacci_correct :
    (∀ n : Nat, fibonacci n = ((Nat.fib n : Int), (Nat.fib (n + 1) : Int)))
    ∧ (∀ q n, goParseUint64 q = .ok n →
        fibonacciHandler q = { status := 200, body := Nat.repr (Nat.fib n), headers := [] }) := by
  constructor
  · exact fibonacci_fast_doubling
  · intro q n hq
    have hne : q ≠ "" := by
      rintro rfl
      simp [goParseUint64] at hq
    unfold fibonacciHandler
    rw [if_neg hne, hq]
    dsimp only
    rw [fibonacci_fast_doubling n]
    rfl

/-- Witness for `fibonacci_correct` at `n=10`: the body is `"55"`. -/
theorem fibonacci_correct_witness :
    fibonacciHandler "10" = { status := 200, body := "55", headers := [] } := by
  have h := fibonacci_correct.2 "10" 10 rfl
  rw [h]
  decide

/-- The read/echo loop of `websocketHandler`
(`src/cmd/echoserver/handlers.go`): each successful `ReadMessage` yields a
frame (message type, payload) which is written back unchanged with
`WriteMessage(mt, message)`; a read error or a write failure ends the
loop.  The input list is the sequence of read results; `writeOk` tells
whether each write succeeds; the output is the list of frames actually
written back. -/
def websocketEcho (writeOk : Nat × String → Bool) :
    List (Except String (Nat × String)) → List (Nat × String)
  | [] => []
  | .error _ :: _ => []
  | .ok f :: rest => if writeOk f then f :: websocketEcho writeOk rest else []

/-- C8: in an open duplex echo session (all writes succeed), every
inbound data frame causes exactly one outbound frame, with byte-identical
payload and the same frame type: the echoed output equals the inbound
frame sequence. -/
theorem websocket_echo_exact (frames : List (Nat × String)) :
    websocketEcho (fun _ => true) (frames.map Except.ok) = frames := by
  induction frames with
  | nil => rfl
  | cons f rest ih => simp [websocketEcho, ih]

/-- The gRPC status codes (`google.golang.org/grpc/codes`). -/
inductive GrpcCode where
  | ok
  | canceled
  | unknown
  | invalidArgument
  | deadlineExceeded
  | notFound
  | alreadyExists
  | permissionDenied
  | resourceExhausted
  | failedPrecondition
  | aborted
  | outOfRange
  | unimplemented
  | internal
  | unavailable
  | dataLoss
  | unauthenticated
deriving DecidableEq

/-- The `codes.Code.String()` names of `google.golang.org/grpc/codes`. -/
def grpcCodeString : GrpcCode → String
  | .ok => "OK"
  | .canceled => "Canceled"
  | .unknown => "Unknown"
  | .invalidArgument => "InvalidArgument"
  | .deadlineExceeded => "DeadlineExceeded"
  | .notFound => "NotFound"
  | .alreadyExists => "AlreadyExists"
  | .permissionDenied => "PermissionDenied"
  | .resourceExhausted => "ResourceExhausted"
  | .failedPrecondition => "FailedPrecondition"
  | .aborted => "Aborted"
  | .outOfRange => "OutOfRange"
  | .unimplemented => "Unimplemented"
  | .internal => "Internal"
  | .unavailable => "Unavailable"
  | .dataLoss => "DataLoss"
  | .unauthenticated => "Unauthenticated"

/-- The random table of the gRPC `Status` method (`src/unnamed/part_011`). -/
def grpcRandomStatusCodes : List GrpcCode :=
  [.ok, .ok, .ok, .ok, .ok, .invalidArgument, .notFound, .internal, .unavailable]

/-- The `statusCodesMap` lookup of the gRPC `Status` method: the 17
standard SCREAMING_SNAKE status names. -/
def statusCodesMap (s : String) : Option GrpcCode :=
  if s = "OK" then some .ok
  else if s = "CANCELLED" then some .canceled
  else if s = "UNKNOWN" then some .unknown
  else if s = "INVALID_ARGUMENT" then some .invalidArgument
  else if s = "DEADLINE_EXCEEDED" then some .deadlineExceeded
  else if s = "NOT_FOUND" then some .notFound
  else if s = "ALREADY_EXISTS" then some .alreadyExists
  else if s = "PERMISSION_DENIED" then some .permissionDenied
  else if s = "RESOURCE_EXHAUSTED" then some .resourceExhausted
  else if s = "FAILED_PRECONDITION" then some .failedPrecondition
  else if s = "ABORTED" then some .aborted
  else if s = "OUT_OF_RANGE" then some .outOfRange
  else if s = "UNIMPLEMENTED" then some .unimplemented
  else if s = "INTERNAL" then some .internal
  else if s = "UNAVAILABLE" then some .unavailable
  else if s = "DATA_LOSS" then some .dataLoss
  else if s = "UNAUTHENTICATED" then some .unauthenticated
  else none

/-- Embedding of the gRPC `Status` method (`src/unnamed/part_011`): the
returned error code and message (`grpcstatus.Error(c, msg)`; note that
with code `OK` Go returns a nil error, i.e. the RPC succeeds, which is
what code `OK` denotes here).  `randIdx` is the uniform draw of
`rand.Int` in `[0, 9)`. -/
def grpcStatus (status : String) (randIdx : Nat) : GrpcCode × String :=
  if status = "" ∨ status = "random" then
    let c := grpcRandomStatusCodes.getD randIdx .ok
    (c, grpcCodeString c)
  else match statusCodesMap status with
  | some c => (c, grpcCodeString c)
  | none => (.internal, "Unknown status parameter")

/-- C5 counterexample: the random table has 9 entries over only 5
distinct codes; it does not cover the 17 standard gRPC status names
(e.g. `Aborted` is absent, and the concrete draw at index 5 is
`InvalidArgument`, one of only four non-OK codes in the table). -/
theorem grpc_random_table_counterexample :
    grpcRandomStatusCodes.length = 9
    ∧ GrpcCode.aborted ∉ grpcRandomStatusCodes
    ∧ (grpcStatus "random" 5).1 = GrpcCode.invalidArgument := by
  decide

/-- C5 (amended): with `status` empty or `"random"`, the returned code is
drawn from the 9-entry table `[OK×5, InvalidArgument, NotFound, Internal,
Unavailable]` — OK weighted 5 of 9, each entry equally likely under the
uniform index draw — and the message is the code's name. -/
theorem grpc_random_status (s : String) (i : Nat)
    (hs : s = "" ∨ s = "random") (_hi : i < 9) :
    (grpcStatus s i).1 = grpcRandomStatusCodes.getD i .ok
    ∧ (grpcStatus s i).2 = grpcCodeString ((grpcStatus s i).1)
    ∧ grpcRandomStatusCodes =
        [.ok, .ok, .ok, .ok, .ok, .invalidArgument, .notFound, .internal, .unavailable]
    ∧ grpcRandomStatusCodes.count .ok = 5 := by
  unfold grpcStatus
  rw [if_pos hs]
  exact ⟨rfl, rfl, rfl, by decide⟩

/-- Witness for `grpc_random_status` at `status=random`, index 5. -/
theorem grpc_random_status_witness :
    (grpcStatus "random" 5).1 = GrpcCode.invalidArgument
    ∧ (grpcStatus "random" 5).2 = "InvalidArgument" := by
  have h := grpc_random_status "random" 5 (Or.inr rfl) (by decide)
  exact ⟨by rw [h.1]; decide, by rw [h.2.1, h.1]; decide⟩

/-- C10: a non-empty `status` that is neither `"random"` nor one of the
17 standard names yields the server-error code `Internal` with message
`"Unknown status parameter"`, not the client-input-error code
`InvalidArgument`. -/
theorem grpc_unknown_status (s : String) (i : Nat)
    (h1 : s ≠ "") (h2 : s ≠ "random") (h3 : statusCodesMap s = none) :
    grpcStatus s i = (.internal, "Unknown status parameter")
    ∧ (grpcStatus s i).1 ≠ GrpcCode.invalidArgument := by
  have hcase : grpcStatus s i = (.internal, "Unknown status parameter") := by
    unfold grpcStatus
    rw [if_neg (not_or.mpr ⟨h1, h2⟩), h3]
  exact ⟨hcase, by rw [hcase]; decide⟩

/-- Witness for `grpc_unknown_status` at `status=FOO`. -/
theorem grpc_unknown_status_witness :
    grpcStatus "FOO" 0 = (GrpcCode.internal, "Unknown status parameter") :=
  (grpc_unknown_status "FOO" 0 (by decide) (by decide) rfl).1

/-- The request-id metadata key
(`pkg/grpcserver/middleware/requestid`, `src/unnamed/part_010`). -/
def requestIDHeader : String := "x-request-id"

/-- Model of `fmt.Sprintf("%s: %s", key, value)`, the grpcurl header format. -/
def formatHeader (key value : String) : String := key ++ ": " ++ value

/-- Embedding of the outbound-header construction of the gRPC `Request`
method (`src/unnamed/part_011`): all caller-supplied headers (the map
iteration is modelled as a list), then the context-derived request id
when non-empty, then the first incoming-metadata request id when
present — each appended unconditionally. -/
def grpcRequestHeaders (callerHeaders : List (String × String))
    (ctxRequestId : String) (incomingMDIds : List String) : List String :=
  let hs := callerHeaders.map (fun kv => formatHeader kv.1 kv.2)
  let hs2 := if ctxRequestId ≠ "" then hs ++ [formatHeader requestIDHeader ctxRequestId] else hs
  match incomingMDIds with
  | [] => hs2
  | v :: _ => hs2 ++ [formatHeader requestIDHeader v]

/-- Embedding of the outbound-header construction of the HTTP
`requestHandler` (`src/cmd/echoserver/handlers.go`): `req.Header.Add` for
each caller-supplied header and nothing else — no request id is added. -/
def httpRequestHeaders (callerHeaders : List (String × String)) : List (String × String) :=
  callerHeaders.foldl (fun acc kv => acc ++ [kv]) []

theorem foldl_append_singleton (l acc : List (String × String)) :
    l.foldl (fun a kv => a ++ [kv]) acc = acc ++ l := by
  induction l generalizing acc with
  | nil => simp
  | cons x xs ih => simp [List.foldl_cons, ih]

/-- C4 counterexample: with a caller-supplied `x-request-id` header and a
non-empty context request id, the gRPC `Request` method sends *both* — the
context-derived id is appended even though the caller supplied one under
the same key; and the HTTP handler forwards only caller headers. -/
theorem requestid_precedence_counterexample :
    grpcRequestHeaders [("x-request-id", "caller-id")] "ctx-id" [] =
      ["x-request-id: caller-id", "x-request-id: ctx-id"]
    ∧ httpRequestHeaders [("x-request-id", "caller-id")] = [("x-request-id", "caller-id")] :=
  ⟨rfl, rfl⟩

/-- C4 (amended): the gRPC `Request` method merges rather than
overwrites — every caller-supplied header is forwarded and the
context-derived request id (when non-empty) is appended *unconditionally*,
so both may be present under the same key; the HTTP `/request` handler
forwards exactly the caller-supplied headers and adds no request id at
all. -/
theorem requestid_merge (caller : List (String × String)) (ctxId : String)
    (md : List String) (h : ctxId ≠ "") :
    formatHeader requestIDHeader ctxId ∈ grpcRequestHeaders caller ctxId md
    ∧ (∀ kv ∈ caller, formatHeader kv.1 kv.2 ∈ grpcRequestHeaders caller ctxId md)
    ∧ httpRequestHeaders caller = caller := by
  refine ⟨?_, ?_, ?_⟩
  · unfold grpcRequestHeaders
    cases md with
    | nil => simp [h]
    | cons v rest => simp [h]
  · intro kv hkv
    have hmem : formatHeader kv.1 kv.2 ∈
        caller.map (fun p => formatHeader p.1 p.2) := List.mem_map_of_mem _ hkv
    unfold grpcRequestHeaders
    cases md with
    | nil =>
      dsimp only
      rw [if_pos h]
      exact List.mem_append.mpr (Or.inl hmem)
    | cons v rest =>
      dsimp only
      rw [if_pos h]
      exact List.mem_append.mpr (Or.inl (List.mem_append.mpr (Or.inl hmem)))
  · unfold httpRequestHeaders
    rw [foldl_append_singleton]
    simp

/-- Witness for `requestid_merge` at a concrete caller header list,
context id and empty metadata. -/
theorem requestid_merge_witness :
    formatHeader requestIDHeader "ctx-id" ∈ grpcRequestHeaders [("a", "b")] "ctx-id" []
    ∧ httpRequestHeaders [("a", "b")] = [("a", "b")] :=
  ⟨(requestid_merge [("a", "b")] "ctx-id" [] (by decide)).1,
   (requestid_merge [("a", "b")] "ctx-id" [] (by decide)).2.2⟩

end Echoserver
